import Mathlib

/-!
# Verification of the docker-ctp configuration and pipeline logic

Shallow embedding of the Python package `docker_ctp` (files
`docker_ctp/config/__init__.py`, `docker_ctp/core/runner.py`,
`docker_ctp/core/service.py`, `docker_ctp/core/docker_ops.py`,
`docker_ctp/utils/cleanup.py`, `docker_ctp/utils/rebuild.py`,
`docker_ctp/utils/input_validation.py`, `docker_ctp/cli/__init__.py`).

Python `str` is modelled as Lean `String`, `pathlib.Path` values as their
normalised POSIX string (see `pathNorm`; symlink resolution and the POSIX
double-slash corner case are not modelled), `None`-able strings as
`Option String`.  External subprocesses are modelled by an explicit
`world : List String → CmdResult` argument giving the exit code and captured
output of each command vector, and each operation additionally returns the
list of command vectors it actually spawned.
-/

namespace DockerCtp

/-- Values fixed at module-import time in `docker_ctp/config/__init__.py`:
`DEFAULT_DOCKER_USERNAME`/`DEFAULT_GITHUB_USERNAME` are `get_env("USER", "")`,
and `DEFAULT_IMAGE_NAME` is `Path.cwd().name`. -/
structure Defaults where
  userEnv : String
  cwdName : String
deriving DecidableEq, Repr

/-- `DEFAULT_REGISTRY = "docker"` -/
def DEFAULT_REGISTRY : String := "docker"

/-- `DEFAULT_DOCKERHUB_TAG = "latest"` -/
def DEFAULT_DOCKERHUB_TAG : String := "latest"

/-- `DEFAULT_GITHUB_TAG = "main"` -/
def DEFAULT_GITHUB_TAG : String := "main"

/-- `DEFAULT_DOCKERFILE_DIR = Path(".")` -/
def DEFAULT_DOCKERFILE_DIR : String := "."

/-- Dataclass `RegistryCredentials` (config/__init__.py lines 23-39). -/
structure RegistryCredentials where
  registry : String
  docker_username : String
  github_username : String
  username : String
deriving DecidableEq, Repr

/-- Dataclass `ImageInfo` (config/__init__.py lines 42-55).
`dockerfile_dir : Path` is modelled as its normalised string. -/
structure ImageInfo where
  image_name : String
  tag : Option String
  dockerfile_dir : String
deriving DecidableEq, Repr

/-- Dataclass `BuildFlags` (config/__init__.py lines 58-63). -/
structure BuildFlags where
  use_cache : Bool
  force_rebuild : Bool
deriving DecidableEq, Repr

/-- Dataclass `RuntimeFlags` (config/__init__.py lines 66-72). -/
structure RuntimeFlags where
  dry_run : Bool
  log_level : String
  cleanup_on_exit : Bool
deriving DecidableEq, Repr

/-- Dataclass `Config` (config/__init__.py lines 75-88). -/
structure Config where
  creds : RegistryCredentials
  image : ImageInfo
  build : BuildFlags
  runtime : RuntimeFlags
deriving DecidableEq, Repr

/-- The dataclass field defaults of `RegistryCredentials`. -/
def defaultCreds (D : Defaults) : RegistryCredentials :=
  { registry := DEFAULT_REGISTRY
    docker_username := D.userEnv
    github_username := D.userEnv
    username := "" }

/-- The dataclass field defaults of `ImageInfo`. -/
def defaultImage (D : Defaults) : ImageInfo :=
  { image_name := D.cwdName
    tag := none
    dockerfile_dir := DEFAULT_DOCKERFILE_DIR }

/-- The dataclass field defaults of `BuildFlags`. -/
def defaultBuild : BuildFlags :=
  { use_cache := true, force_rebuild := false }

/-- The dataclass field defaults of `RuntimeFlags`. -/
def defaultRuntime : RuntimeFlags :=
  { dry_run := false, log_level := "normal", cleanup_on_exit := true }

/-- `Config()` with every field left at its dataclass default. -/
def defaultConfig (D : Defaults) : Config :=
  { creds := defaultCreds D
    image := defaultImage D
    build := defaultBuild
    runtime := defaultRuntime }

/-- Python truthiness of an optional string: `None` and `""` are falsy. -/
def optStrFalsy : Option String → Bool
  | none => true
  | some s => s = ""

/-- `RegistryCredentials.resolve_username` (config/__init__.py lines 32-39):
populate `username` from the registry-specific default when it is empty. -/
def resolveUsername (c : RegistryCredentials) : RegistryCredentials :=
  if c.username = "" then
    { c with username :=
        if c.registry = "docker" then c.docker_username else c.github_username }
  else c

/-- `ImageInfo.set_default_tag` (config/__init__.py lines 50-55):
fill in a default tag when `tag` is `None` or empty. -/
def setDefaultTag (i : ImageInfo) (registry : String) : ImageInfo :=
  if optStrFalsy i.tag then
    { i with
        tag := some (if registry = "docker" then DEFAULT_DOCKERHUB_TAG else DEFAULT_GITHUB_TAG) }
  else i

/-- `Config.resolve` (config/__init__.py lines 139-142). -/
def Config.resolve (c : Config) : Config :=
  let creds := resolveUsername c.creds
  let image := setDefaultTag c.image creds.registry
  { c with creds := creds, image := image }

/-! ## Path modelling

`pathlib.PurePosixPath` equality compares parsed components, so `Path(x)` is
modelled as the component-normalised string `pathNorm x` (empty and `"."`
components dropped, leading `/` kept).  `Path.resolve()` additionally makes the
path absolute against the current working directory and eliminates `".."`
components (symlinks are not modelled). -/

/-- Split a character list on a separator (structurally recursive analogue of
`str.split(sep)`). -/
def splitOnChar (sep : Char) : List Char → List (List Char)
  | [] => [[]]
  | c :: rest =>
    if c = sep then [] :: splitOnChar sep rest
    else
      match splitOnChar sep rest with
      | h :: t => (c :: h) :: t
      | [] => [[c]]

/-- Is the first list a leading segment of the second? -/
def listLeads : List Char → List Char → Bool
  | [], _ => true
  | _, [] => false
  | a :: as, b :: bs => a = b && listLeads as bs

/-- `str.startswith`. -/
def strStartsWith (s pre : String) : Bool :=
  listLeads pre.data s.data

/-- `str.endswith`. -/
def strEndsWith (s suf : String) : Bool :=
  listLeads suf.data.reverse s.data.reverse

/-- `s[:-1]`. -/
def strDropLast (s : String) : String :=
  ⟨s.data.dropLast⟩

/-- `str.lower()` (ASCII). -/
def strToLower (s : String) : String :=
  ⟨s.data.map Char.toLower⟩

/-- Join strings with `/`. -/
def joinSlash : List String → String
  | [] => ""
  | [s] => s
  | s :: rest => s ++ "/" ++ joinSlash rest

/-- Split a POSIX path string into its non-empty components. -/
def splitPath (p : String) : List String :=
  ((splitOnChar '/' p.data).map (fun l => (⟨l⟩ : String))).filter (fun c => c ≠ "")

/-- The string form of `PurePosixPath(p)`: components with `""` and `"."`
dropped, re-joined, `.` for an empty relative path (the POSIX `//` root
corner case is not modelled). -/
def pathNorm (p : String) : String :=
  let parts := (splitPath p).filter (fun c => c ≠ ".")
  let body := joinSlash parts
  if strStartsWith p "/" then "/" ++ body
  else if body = "" then "." else body

/-- Component list of `Path(p).resolve()` relative to an absolute working
directory with components `cwdParts`. -/
def resolveParts (cwdParts : List String) (p : String) : List String :=
  (splitPath p).foldl
    (fun acc c =>
      if c = "." then acc
      else if c = ".." then acc.dropLast
      else acc ++ [c])
    (if strStartsWith p "/" then [] else cwdParts)

/-- `PurePath.name`: the final path component (no normalisation). -/
def pathName (p : String) : String :=
  (splitPath p).getLast?.getD ""

/-- `Path(p).resolve().name` with current working directory `cwd`. -/
def pathResolveName (cwd p : String) : String :=
  (resolveParts (splitPath cwd) p).getLast?.getD ""

/-! ## Config.from_cli -/

/-- The parsed Click arguments handed to `Config.from_cli`
(cli/__init__.py builds them from the option declarations; options without a
default arrive as `None`). -/
structure CliArgs where
  username : Option String
  image_name : Option String
  tag : Option String
  dockerfile_dir : String
  registry : String
  no_cache : Bool
  force_rebuild : Bool
  dry_run : Bool
  verbose : Bool
  quiet : Bool
  no_cleanup : Bool
deriving DecidableEq, Repr

/-- Python `x or d` for an optional string `x`: `None` and `""` fall back. -/
def orElseStr (o : Option String) (d : String) : String :=
  match o with
  | none => d
  | some s => if s = "" then d else s

/-- `Config.from_cli` (config/__init__.py lines 94-115).  `D` supplies the
import-time defaults of the dataclass fields that `from_cli` does not pass
explicitly; `cwd` is the current working directory used by
`Path(args.dockerfile_dir).resolve()`. -/
def fromCli (D : Defaults) (cwd : String) (args : CliArgs) : Config :=
  { creds :=
      { registry := args.registry
        docker_username := D.userEnv
        github_username := D.userEnv
        username := orElseStr args.username "" }
    image :=
      { image_name := orElseStr args.image_name (pathResolveName cwd args.dockerfile_dir)
        tag := args.tag
        dockerfile_dir := pathNorm args.dockerfile_dir }
    build :=
      { use_cache := !args.no_cache, force_rebuild := args.force_rebuild }
    runtime :=
      { dry_run := args.dry_run
        log_level :=
          if args.verbose then "verbose" else if args.quiet then "quiet" else "normal"
        cleanup_on_exit := !args.no_cleanup } }

/-! ## load_env (config/__init__.py lines 286-349)

`load_env` processes the first existing `.env` file: each `KEY=VALUE` line is
parsed, the key lowercased, and the value assigned to the matching dataclass
field of one of the four sub-configs — but only when the field's current value
still equals its dataclass default (`_get_field_default`).  Booleans parse
`"true"` case-insensitively, `Path` fields wrap the string, everything else is
stored as the plain string.  After the file is processed `config.resolve()`
runs once more. -/

/-- One recognized configuration field key (the dataclass field names of the
four sub-configs searched by `load_env`; a key that is not a field name —
including method names like `resolve_username`, for which
`_get_field_default` returns `None` and the `current != default_val` guard
then skips — leaves the configuration unchanged). -/
inductive FieldKey
  | registry | docker_username | github_username | username
  | image_name | tag | dockerfile_dir
  | use_cache | force_rebuild
  | dry_run | log_level | cleanup_on_exit
deriving DecidableEq, Repr

/-- The runtime value held by a configuration field. -/
inductive FieldVal
  | str (s : String)
  | ostr (o : Option String)
  | bool (b : Bool)
deriving DecidableEq, Repr

/-- The lowercased `.env` key that selects each field. -/
def keyName : FieldKey → String
  | .registry => "registry"
  | .docker_username => "docker_username"
  | .github_username => "github_username"
  | .username => "username"
  | .image_name => "image_name"
  | .tag => "tag"
  | .dockerfile_dir => "dockerfile_dir"
  | .use_cache => "use_cache"
  | .force_rebuild => "force_rebuild"
  | .dry_run => "dry_run"
  | .log_level => "log_level"
  | .cleanup_on_exit => "cleanup_on_exit"

/-- Which field (if any) a lowercased key refers to, mirroring the
`hasattr(sub_config, key)` search over `(creds, image, build, runtime)`. -/
def keyOf (key : String) : Option FieldKey :=
  if key = "registry" then some .registry
  else if key = "docker_username" then some .docker_username
  else if key = "github_username" then some .github_username
  else if key = "username" then some .username
  else if key = "image_name" then some .image_name
  else if key = "tag" then some .tag
  else if key = "dockerfile_dir" then some .dockerfile_dir
  else if key = "use_cache" then some .use_cache
  else if key = "force_rebuild" then some .force_rebuild
  else if key = "dry_run" then some .dry_run
  else if key = "log_level" then some .log_level
  else if key = "cleanup_on_exit" then some .cleanup_on_exit
  else none

/-- Read a field of a `Config`. -/
def getField (c : Config) : FieldKey → FieldVal
  | .registry => .str c.creds.registry
  | .docker_username => .str c.creds.docker_username
  | .github_username => .str c.creds.github_username
  | .username => .str c.creds.username
  | .image_name => .str c.image.image_name
  | .tag => .ostr c.image.tag
  | .dockerfile_dir => .str c.image.dockerfile_dir
  | .use_cache => .bool c.build.use_cache
  | .force_rebuild => .bool c.build.force_rebuild
  | .dry_run => .bool c.runtime.dry_run
  | .log_level => .str c.runtime.log_level
  | .cleanup_on_exit => .bool c.runtime.cleanup_on_exit

/-- `_get_field_default` (config/__init__.py lines 286-294): the dataclass
default of each field. -/
def defaultField (D : Defaults) : FieldKey → FieldVal
  | .registry => .str DEFAULT_REGISTRY
  | .docker_username => .str D.userEnv
  | .github_username => .str D.userEnv
  | .username => .str ""
  | .image_name => .str D.cwdName
  | .tag => .ostr none
  | .dockerfile_dir => .str DEFAULT_DOCKERFILE_DIR
  | .use_cache => .bool true
  | .force_rebuild => .bool false
  | .dry_run => .bool false
  | .log_level => .str "normal"
  | .cleanup_on_exit => .bool true

/-- The type coercion `load_env` applies to an `.env` value before assigning
it (config/__init__.py lines 337-343): the coercion is chosen by
`isinstance(current, ...)` on the current value, whose type is that of the
dataclass default whenever the guard allows assignment. -/
def coerceVal : FieldKey → String → FieldVal
  | .use_cache, v => .bool (strToLower v = "true")
  | .force_rebuild, v => .bool (strToLower v = "true")
  | .dry_run, v => .bool (strToLower v = "true")
  | .cleanup_on_exit, v => .bool (strToLower v = "true")
  | .dockerfile_dir, v => .str (pathNorm v)
  | .tag, v => .ostr (some v)
  | .registry, v => .str v
  | .docker_username, v => .str v
  | .github_username, v => .str v
  | .username, v => .str v
  | .image_name, v => .str v
  | .log_level, v => .str v

/-- Write a (correctly shaped) value into a field of a `Config`. -/
def setField (c : Config) : FieldKey → FieldVal → Config
  | .registry, .str v => { c with creds := { c.creds with registry := v } }
  | .docker_username, .str v => { c with creds := { c.creds with docker_username := v } }
  | .github_username, .str v => { c with creds := { c.creds with github_username := v } }
  | .username, .str v => { c with creds := { c.creds with username := v } }
  | .image_name, .str v => { c with image := { c.image with image_name := v } }
  | .tag, .ostr v => { c with image := { c.image with tag := v } }
  | .dockerfile_dir, .str v => { c with image := { c.image with dockerfile_dir := v } }
  | .use_cache, .bool v => { c with build := { c.build with use_cache := v } }
  | .force_rebuild, .bool v => { c with build := { c.build with force_rebuild := v } }
  | .dry_run, .bool v => { c with runtime := { c.runtime with dry_run := v } }
  | .log_level, .str v => { c with runtime := { c.runtime with log_level := v } }
  | .cleanup_on_exit, .bool v => { c with runtime := { c.runtime with cleanup_on_exit := v } }
  | _, _ => c

/-- The per-key body of `load_env`'s merge loop (config/__init__.py lines
323-344): assign the coerced value only when the current value still equals
the dataclass default. -/
def applyField (D : Defaults) (c : Config) (k : FieldKey) (value : String) : Config :=
  if getField c k = defaultField D k then setField c k (coerceVal k value) else c

/-- Apply one parsed `KEY=VALUE` pair to the configuration (keys that match
no dataclass field leave the configuration unchanged). -/
def applyEnvKV (D : Defaults) (c : Config) (key value : String) : Config :=
  match keyOf key with
  | some k => applyField D c k value
  | none => c

/-! ### `.env` line parsing (config/__init__.py lines 313-320) -/

/-- Drop characters satisfying `p` from both ends of a list. -/
def stripList (p : Char → Bool) (l : List Char) : List Char :=
  ((l.dropWhile p).reverse.dropWhile p).reverse

/-- Python `str.strip()` (whitespace at both ends; the ASCII subset Lean's
`Char.isWhitespace` covers suffices for the inputs modelled here). -/
def pyStrip (s : String) : String :=
  ⟨stripList Char.isWhitespace s.toList⟩

/-- Python `str.strip("'\"")`: quotes dropped from both ends. -/
def pyStripQuotes (s : String) : String :=
  ⟨stripList (fun c => c = '\'' || c = '"') s.toList⟩

/-- Split a character list at the first occurrence of `sep`
(Python `split(sep, 1)` when `sep` occurs; `none` when it does not). -/
def splitOnce (sep : Char) : List Char → Option (List Char × List Char)
  | [] => none
  | c :: rest =>
    if c = sep then some ([], rest)
    else
      match splitOnce sep rest with
      | some (a, b) => some (c :: a, b)
      | none => none

/-- Parse one `.env` line into a lowercased key and a stripped value;
`none` for blank lines, `#` comments, and lines without `=`. -/
def parseEnvLine (line : String) : Option (String × String) :=
  let line := pyStrip line
  if line = "" then none
  else if strStartsWith line "#" then none
  else
    match splitOnce '=' line.data with
    | none => none
    | some (k, v) => some (strToLower (pyStrip ⟨k⟩), pyStripQuotes (pyStrip ⟨v⟩))

/-- Apply one raw `.env` line to the configuration. -/
def applyEnvLine (D : Defaults) (c : Config) (line : String) : Config :=
  match parseEnvLine line with
  | some (k, v) => applyEnvKV D c k v
  | none => c

/-- The effect of `load_env` once a file has been found: merge each line in
order, then `config.resolve()` (config/__init__.py lines 313-347). -/
def loadEnvLines (D : Defaults) (c : Config) (lines : List String) : Config :=
  Config.resolve (lines.foldl (applyEnvLine D) c)

/-! ## Command runner (core/runner.py)

External processes are modelled by `world`, mapping a command vector to the
exit code and captured output the process would produce.  `Runner.run`'s
spinner thread is cosmetic and not modelled.  Each operation returns, besides
its outcome, the list of command vectors it actually spawned. -/

/-- Exit code and captured output of an external command. -/
structure CmdResult where
  exitCode : Nat
  stdout : String
  stderr : String
deriving DecidableEq, Repr

/-- How a runner-level operation ends.  `raisedOp` (a raised
`DockerOperationError` carrying a message) is produced by `docker_ops.login`
but never by `Runner.run`, which calls `sys.exit(1)` instead (`sysExit`). -/
inductive RunOutcome
  | dryLogged
  | ok
  | sysExit (code : Nat)
  | raisedOp (msg : String)
deriving DecidableEq, Repr

/-- `Runner.run` (core/runner.py lines 22-68): in dry-run mode log the
command and return; otherwise run it with output captured — on exit code 0
log and succeed, on a non-zero exit log the captured stdout/stderr and call
`sys.exit(1)` (the `subprocess.CalledProcessError` is caught internally and
never propagates). -/
def runnerRun (dry : Bool) (args : List String)
    (world : List String → CmdResult) : RunOutcome × List (List String) :=
  if dry then (.dryLogged, [])
  else
    let r := world args
    if r.exitCode = 0 then (.ok, [args]) else (.sysExit 1, [args])

/-! ## Cleanup manager (utils/cleanup.py) -/

/-- The mutable state of a `CleanupManager`. -/
structure CleanupState where
  dry_run : Bool
  images : List String
deriving DecidableEq, Repr

/-- `CleanupManager.register` (utils/cleanup.py lines 31-37): append. -/
def register (st : CleanupState) (image : String) : CleanupState :=
  { st with images := st.images ++ [image] }

/-- Result of `CleanupManager.cleanup`: the state afterwards, the images for
which a `docker rmi` was actually invoked, and how the call ended. -/
structure CleanupResult where
  state : CleanupState
  attempted : List String
  outcome : RunOutcome
deriving DecidableEq, Repr

/-- The per-image loop of `CleanupManager.cleanup` (utils/cleanup.py lines
46-54).  In dry-run mode each image is only logged (`"DRY-RUN would remove"`).
Otherwise `Runner.run ["docker","rmi",image]` is invoked; its
`except subprocess.CalledProcessError` handler is dead code, because
`Runner.run` never lets that exception escape — on failure it calls
`sys.exit(1)`, whose `SystemExit` is not caught here and abandons the loop. -/
def cleanupLoop (dry : Bool) (world : List String → CmdResult) :
    List String → List String × RunOutcome
  | [] => ([], .ok)
  | image :: rest =>
    if dry then cleanupLoop dry world rest
    else
      match runnerRun false ["docker", "rmi", image] world with
      | (.ok, _) =>
        let (a, o) := cleanupLoop dry world rest
        (image :: a, o)
      | (o, _) => ([image], o)

/-- `CleanupManager.cleanup` (utils/cleanup.py lines 39-56): return at once
when no image is registered, else run the removal loop.  The image list is
never written. -/
def cleanup (st : CleanupState) (world : List String → CmdResult) : CleanupResult :=
  if st.images = [] then ⟨st, [], .ok⟩
  else
    ⟨st, (cleanupLoop st.dry_run world st.images).1,
      (cleanupLoop st.dry_run world st.images).2⟩

/-! ## Docker operations (core/docker_ops.py, utils/rebuild.py) -/

/-- Python's f-string rendering of the optional tag (`None` prints as
`"None"`; after `resolve` the tag is always set). -/
def tagToStr : Option String → String
  | none => "None"
  | some s => s

/-- The local build tag `f"{config.image_name}:{config.tag}"`. -/
def localTag (c : Config) : String :=
  c.image.image_name ++ ":" ++ tagToStr c.image.tag

/-- The command vector spawned by `image_exists`. -/
def inspectCmd (tg : String) : List String :=
  ["docker", "image", "inspect", tg]

/-- `image_exists` (utils/rebuild.py lines 8-16): always runs
`docker image inspect` (with `check=False`) and tests its exit code; there is
no dry-run short-circuit in this helper. -/
def image_exists (world : List String → CmdResult) (tg : String) :
    Bool × List (List String) :=
  ((world (inspectCmd tg)).exitCode = 0, [inspectCmd tg])

/-- The `docker build` command vector assembled by `build`
(core/docker_ops.py lines 103-106). -/
def buildArgs (c : Config) (tg : String) : List String :=
  ["docker", "build"] ++ (if c.build.use_cache then [] else ["--no-cache"])
    ++ ["-t", tg] ++ [c.image.dockerfile_dir]

/-- `build` (core/docker_ops.py lines 90-107): unless `force_rebuild` is set,
first query `image_exists` (spawning the inspect command even in dry-run
mode); skip the build when the image exists, otherwise run `docker build`
through the runner. -/
def buildOp (c : Config) (dry : Bool) (world : List String → CmdResult) :
    RunOutcome × List (List String) :=
  let tg := localTag c
  if c.build.force_rebuild then runnerRun dry (buildArgs c tg) world
  else
    let (ex, sp) := image_exists world tg
    if ex then (.ok, sp)
    else
      let (o, sp2) := runnerRun dry (buildArgs c tg) world
      (o, sp ++ sp2)

/-- The `docker login` command vector (core/docker_ops.py lines 59-63). -/
def loginCmd (c : Config) : List String :=
  ["docker", "login"] ++ (if c.creds.registry = "github" then ["ghcr.io"] else [])
    ++ ["-u", c.creds.username, "--password-stdin"]

/-- `login` (core/docker_ops.py lines 26-87): skipped entirely in dry-run
mode; otherwise the token (from `get_token`, passed in here as `token`) is
piped to `docker login` — no token raises `DockerOperationError`, as does a
non-zero exit of the login process. -/
def loginOp (c : Config) (dry : Bool) (token : Option String)
    (world : List String → CmdResult) : RunOutcome × List (List String) :=
  if dry then (.dryLogged, [])
  else
    match token with
    | none =>
      (.raisedOp ("No token found for " ++ c.creds.registry
        ++ ". Please set DOCKER_HUB_TOKEN/GITHUB_TOKEN or log in manually."), [])
    | some _ =>
      let cmd := loginCmd c
      let r := world cmd
      if r.exitCode = 0 then (.ok, [cmd])
      else (.raisedOp ("Failed to login: "
        ++ (if pyStrip r.stderr ≠ "" then pyStrip r.stderr else pyStrip r.stdout)), [cmd])

/-- The registry-qualified target of `tag_image`
(core/docker_ops.py lines 120-124). -/
def tagTarget (c : Config) : String :=
  if c.creds.registry = "docker" then
    c.creds.docker_username ++ "/" ++ c.image.image_name ++ ":" ++ tagToStr c.image.tag
  else
    "ghcr.io/" ++ c.creds.github_username ++ "/" ++ c.image.image_name ++ ":" ++ tagToStr c.image.tag

/-- `tag_image` (core/docker_ops.py lines 110-128). -/
def tagOp (c : Config) (dry : Bool) (world : List String → CmdResult) :
    RunOutcome × List (List String) :=
  runnerRun dry ["docker", "tag", localTag c, tagTarget c] world

/-- `push` (core/docker_ops.py lines 131-140). -/
def pushOp (image : String) (dry : Bool) (world : List String → CmdResult) :
    RunOutcome × List (List String) :=
  runnerRun dry ["docker", "push", image] world

/-- Does this outcome abort the pipeline?  (`dryLogged` and `ok` are normal
returns; `sysExit` and `raisedOp` propagate.) -/
def failing : RunOutcome → Bool
  | .dryLogged => false
  | .ok => false
  | .sysExit _ => true
  | .raisedOp _ => true

/-- The external-process side of `DockerService.execute_workflow`
(core/service.py lines 88-119) after validation has passed: login, build,
tag, register, push in order, aborting on the first failing outcome, then —
in the `finally` block, when `cleanup_on_exit` is set — the cleanup pass over
the registered images.  Returns all spawned command vectors and the final
outcome. -/
def opsWorkflow (c : Config) (token : Option String)
    (world : List String → CmdResult) : List (List String) × RunOutcome :=
  let dry := c.runtime.dry_run
  let cleanupSpawns : CleanupState → List (List String) × RunOutcome := fun st =>
    if c.runtime.cleanup_on_exit then
      let r := cleanup st world
      (r.attempted.map (fun i => ["docker", "rmi", i]), r.outcome)
    else ([], .ok)
  let st0 : CleanupState := ⟨dry, []⟩
  let (o1, s1) := loginOp c dry token world
  if failing o1 then (s1 ++ (cleanupSpawns st0).1, o1)
  else
    let (o2, s2) := buildOp c dry world
    if failing o2 then (s1 ++ s2 ++ (cleanupSpawns st0).1, o2)
    else
      let (o3, s3) := tagOp c dry world
      if failing o3 then (s1 ++ s2 ++ s3 ++ (cleanupSpawns st0).1, o3)
      else
        let st1 := register st0 (localTag c)
        let (o4, s4) := pushOp (tagTarget c) dry world
        if failing o4 then (s1 ++ s2 ++ s3 ++ s4 ++ (cleanupSpawns st1).1, o4)
        else (s1 ++ s2 ++ s3 ++ s4 ++ (cleanupSpawns st1).1, (cleanupSpawns st1).2)

/-! ## Input validation (utils/input_validation.py, core/service.py lines 50-77) -/

/-- The two error classes validation can raise (exceptions.py). -/
inductive VErr
  | configError (msg : String)
  | validationError (msg : String)
deriving DecidableEq, Repr

/-- One character of the class `[a-zA-Z0-9._-]`. -/
def isIdentChar (c : Char) : Bool :=
  ('a' ≤ c && c ≤ 'z') || ('A' ≤ c && c ≤ 'Z') || ('0' ≤ c && c ≤ '9')
    || c = '.' || c = '_' || c = '-'

/-- 1 to 100 characters, all from the identifier class. -/
def identCore (s : String) : Bool :=
  1 ≤ s.data.length && s.data.length ≤ 100 && s.data.all isIdentChar

/-- Python `re.match(r"^[a-zA-Z0-9._-]{1,100}$", s)` as a Boolean: `$` also
matches just before a single newline at the very end of the string, so a
valid identifier followed by one trailing `"\n"` matches too. -/
def reMatchIdent (s : String) : Bool :=
  identCore s || (strEndsWith s "\n" && identCore (strDropLast s))

/-- `validate_username` (utils/input_validation.py lines 18-21). -/
def validate_username (s : String) : Except VErr Unit :=
  if reMatchIdent s then .ok ()
  else .error (.validationError ("Invalid username: " ++ s))

/-- `validate_image_name` (utils/input_validation.py lines 24-27). -/
def validate_image_name (s : String) : Except VErr Unit :=
  if reMatchIdent s then .ok ()
  else .error (.validationError ("Invalid image name: " ++ s))

/-- `validate_tag` (utils/input_validation.py lines 30-33). -/
def validate_tag (s : String) : Except VErr Unit :=
  if reMatchIdent s then .ok ()
  else .error (.validationError ("Invalid tag: " ++ s))

/-- Filesystem facts consumed by validation: whether the Dockerfile directory
is a directory and whether `dir/Dockerfile` is a file. -/
structure FsFacts where
  dirIsDir : Bool
  dockerfileIsFile : Bool
deriving DecidableEq, Repr

/-- `PurePosixPath` `/` child join, for the error-message strings. -/
def pathChild (dir name : String) : String :=
  if dir = "." then name
  else if dir = "/" then "/" ++ name
  else dir ++ "/" ++ name

/-- `validate_dockerfile_dir` (utils/input_validation.py lines 36-44). -/
def validate_dockerfile_dir (fs : FsFacts) (dir : String) : Except VErr Unit :=
  if !fs.dirIsDir then
    .error (.validationError ("Dockerfile directory not found: " ++ dir))
  else if !fs.dockerfileIsFile then
    .error (.validationError ("Dockerfile not found at " ++ pathChild dir "Dockerfile"))
  else .ok ()

/-- `DockerService._validate_inputs` (core/service.py lines 50-77):
registry-enum check (`ConfigError`), then username / image-name / tag pattern
checks (`ValidationError` from `utils/input_validation.py`; the tag is only
checked when truthy), then the Dockerfile-directory checks — the service's
own `ConfigError` re-check of `Dockerfile` presence is unreachable because
`validate_dockerfile_dir` already raised for the same fact.
`validate_build_context` only logs advisory warnings and is a no-op here. -/
def validateInputs (fs : FsFacts) (c : Config) : Except VErr Unit := do
  if !(c.creds.registry = "docker" || c.creds.registry = "github") then
    throw (.configError "Registry must be 'docker' or 'github'")
  validate_username c.creds.username
  validate_image_name c.image.image_name
  if !optStrFalsy c.image.tag then
    validate_tag (tagToStr c.image.tag)
  validate_dockerfile_dir fs c.image.dockerfile_dir
  if !fs.dockerfileIsFile then
    throw (.configError ("Dockerfile not found at "
      ++ pathChild c.image.dockerfile_dir "Dockerfile"))
  pure ()

/-! ## The workflow step sequence (core/service.py lines 79-119)

For claim C3 the five pipeline steps are abstracted over *how* each one ends:
normally, with a raised exception, or with `sys.exit` (`SystemExit`).  The
`try/except Exception/finally` of `execute_workflow` re-raises whatever
arrives, and its `finally` block runs the cleanup pass for every way out
whenever `cleanup_on_exit` is set. -/

/-- How a pipeline step signals completion or failure. -/
inductive StepSig
  | ok
  | exc (msg : String)
  | exit (code : Nat)
deriving DecidableEq, Repr

/-- The steps of `execute_workflow`, in program order (`registerStep` is the
in-memory `cleanup_manager.register` call between tag and push; it cannot
fail). -/
inductive Step
  | validateStep | loginStep | buildStep | tagStep | registerStep | pushStep
deriving DecidableEq, Repr

/-- The behaviour of one run: how each failable step would end. -/
structure StepBeh where
  validateSig : StepSig
  loginSig : StepSig
  buildSig : StepSig
  tagSig : StepSig
  pushSig : StepSig
deriving DecidableEq, Repr

/-- The step/signal sequence of `execute_workflow` in program order. -/
def stepsOf (b : StepBeh) : List (Step × StepSig) :=
  [(.validateStep, b.validateSig), (.loginStep, b.loginSig),
   (.buildStep, b.buildSig), (.tagStep, b.tagSig),
   (.registerStep, .ok), (.pushStep, b.pushSig)]

/-- Run steps in order: each step is entered, and the first one that does not
end normally aborts the rest.  Returns the steps entered and the final
signal. -/
def runSeq : List (Step × StepSig) → List Step × StepSig
  | [] => ([], .ok)
  | (st, sig) :: rest =>
    match sig with
    | .ok =>
      let (ex, o) := runSeq rest
      (st :: ex, o)
    | s => ([st], s)

/-- Result of `execute_workflow`: the steps entered, whether the cleanup pass
ran, and the signal the method ends with. -/
structure WorkflowResult where
  executed : List Step
  cleanupInvoked : Bool
  outcome : StepSig
deriving DecidableEq, Repr

/-- `DockerService.execute_workflow` (core/service.py lines 79-119) at the
step level: the `try` body runs the steps in order, the `except Exception`
clause only logs and re-raises, and the `finally` block invokes the cleanup
pass exactly when `cleanup_on_exit` is set — for a normal return, a raised
exception, and a `SystemExit` alike. -/
def executeWorkflow (b : StepBeh) (cleanupOnExit : Bool) : WorkflowResult :=
  ⟨(runSeq (stepsOf b)).1, cleanupOnExit, (runSeq (stepsOf b)).2⟩

/-- The signal of each failable pipeline step, indexed in pipeline order
(0 validate, 1 login, 2 build, 3 tag, 4 push). -/
def sigAt (b : StepBeh) : Nat → StepSig
  | 0 => b.validateSig
  | 1 => b.loginSig
  | 2 => b.buildSig
  | 3 => b.tagSig
  | 4 => b.pushSig
  | _ => .ok

/-- The pipeline step at each index (same order as `sigAt`). -/
def stepAt : Nat → Step
  | 0 => .validateStep
  | 1 => .loginStep
  | 2 => .buildStep
  | 3 => .tagStep
  | _ => .pushStep

/-! ## Concrete instances used by the theorems below -/

/-- Import-time defaults of a run by user `alice` inside a checkout named
`docker-ctp`. -/
def defaultsEx : Defaults := ⟨"alice", "docker-ctp"⟩

/-- CLI arguments that explicitly pass `-g docker` (the registry's own
default value) together with a username, image name and tag. -/
def argsC1 : CliArgs :=
  { username := some "bob", image_name := some "myimage", tag := some "1.0.0",
    dockerfile_dir := ".", registry := "docker", no_cache := false,
    force_rebuild := false, dry_run := false, verbose := false, quiet := false,
    no_cleanup := false }

/-- A configuration whose username was set from the CLI (differs from the
dataclass default `""`). -/
def cfgCliUser : Config :=
  { defaultConfig defaultsEx with
      creds := { defaultCreds defaultsEx with username := "bob" } }

/-- A world in which every external command fails with exit code 1 and
captured output. -/
def worldFail : List String → CmdResult := fun _ => ⟨1, "captured out", "captured err"⟩

/-- A world in which every external command succeeds silently. -/
def worldOk : List String → CmdResult := fun _ => ⟨0, "", ""⟩

/-- A world in which only `docker rmi imgA:1` fails. -/
def worldRmiAFails : List String → CmdResult := fun args =>
  if args = ["docker", "rmi", "imgA:1"] then ⟨1, "", "rmi failed"⟩ else ⟨0, "", ""⟩

/-- A dry-run configuration without `--force-rebuild` for image
`myimage:1.0.0`. -/
def cfgDry : Config :=
  { creds := ⟨"docker", "alice", "alice", "alice"⟩
    image := ⟨"myimage", some "1.0.0", "."⟩
    build := ⟨true, false⟩
    runtime := ⟨true, "normal", true⟩ }

/-- The same dry-run configuration with `--force-rebuild`, which skips the
`image_exists` query. -/
def cfgDryForce : Config :=
  { cfgDry with build := ⟨true, true⟩ }

/-- A run in which validation succeeds and the login step raises. -/
def behLoginFails : StepBeh :=
  ⟨.ok, .exc "login denied", .ok, .ok, .ok⟩

/-- Filesystem facts for a valid Dockerfile directory. -/
def fsOk : FsFacts := ⟨true, true⟩

/-- A configuration whose username is empty and otherwise valid. -/
def cfgEmptyUser : Config :=
  { creds := ⟨"docker", "alice", "alice", ""⟩
    image := ⟨"myimage", some "1.0.0", "."⟩
    build := ⟨true, false⟩
    runtime := ⟨true, "normal", true⟩ }

/-- A configuration with the malformed username of the spec's scenario. -/
def cfgBadUser : Config :=
  { cfgEmptyUser with creds := ⟨"docker", "alice", "alice", "!!!invalid!!!"⟩ }

/-- CLI arguments with no image name and an explicit Dockerfile directory
away from the current directory. -/
def argsDirAway : CliArgs :=
  { argsC1 with image_name := none, dockerfile_dir := "/srv/elsewhere" }

/-- CLI arguments with no image name and the default Dockerfile directory. -/
def argsDirDefault : CliArgs :=
  { argsC1 with image_name := none, dockerfile_dir := "." }

/-! ## Shared lemmas -/

lemma resolveUsername_registry (x : RegistryCredentials) :
    (resolveUsername x).registry = x.registry := by
  unfold resolveUsername
  split <;> rfl

lemma resolveUsername_idem (x : RegistryCredentials) :
    resolveUsername (resolveUsername x) = resolveUsername x := by
  unfold resolveUsername
  by_cases h : x.username = ""
  · simp only [h, if_pos rfl]
    split <;> simp_all
  · simp [h]

lemma setDefaultTag_idem (i : ImageInfo) (r : String) :
    setDefaultTag (setDefaultTag i r) r = setDefaultTag i r := by
  unfold setDefaultTag
  by_cases h : optStrFalsy i.tag = true
  · simp only [h, if_pos rfl]
    have hne : optStrFalsy
        (some (if r = "docker" then DEFAULT_DOCKERHUB_TAG else DEFAULT_GITHUB_TAG)) = false := by
      by_cases hr : r = "docker" <;>
        simp [optStrFalsy, hr, DEFAULT_DOCKERHUB_TAG, DEFAULT_GITHUB_TAG]
    simp [hne]
  · simp only [Bool.not_eq_true] at h
    simp [h]

lemma keyOf_keyName (k : FieldKey) : keyOf (keyName k) = some k := by
  cases k <;> rfl

/-! ## Claims -/

/-- C1 (amended): for every configuration and every recognized key, the
`.env` merge assigns the (coerced) value to the field if and only if the
field's current value still equals its dataclass default; in particular a
current value that differs from the default — which is what a CLI-supplied
value normally is — is never overwritten. -/
theorem c1_env_assigns_iff_default (D : Defaults) (c : Config) (k : FieldKey) (v : String) :
    getField (applyEnvKV D c (keyName k) v) k =
      (if getField c k = defaultField D k then coerceVal k v else getField c k)
    ∧ (getField c k ≠ defaultField D k →
        getField (applyEnvKV D c (keyName k) v) k = getField c k) := by
  have h : applyEnvKV D c (keyName k) v = applyField D c k v := by
    unfold applyEnvKV
    rw [keyOf_keyName]
  have main : getField (applyEnvKV D c (keyName k) v) k =
      (if getField c k = defaultField D k then coerceVal k v else getField c k) := by
    rw [h]
    unfold applyField
    by_cases hd : getField c k = defaultField D k
    · rw [if_pos hd, if_pos hd]
      cases k <;> rfl
    · rw [if_neg hd, if_neg hd]
  exact ⟨main, fun hne => by rw [main, if_neg hne]⟩

/-- C1 witness: the CLI-supplied username `"bob"` differs from the dataclass
default `""` and survives the `.env` line `USERNAME=eve`. -/
theorem c1_env_assigns_iff_default_witness :
    getField (applyEnvKV defaultsEx cfgCliUser (keyName FieldKey.username) "eve")
        FieldKey.username = getField cfgCliUser FieldKey.username :=
  (c1_env_assigns_iff_default defaultsEx cfgCliUser FieldKey.username "eve").2 (by decide)

/-- C1 counterexample: the registry was explicitly supplied on the CLI as
`-g docker`, yet — because that value equals the compile-time default — the
`.env` line `REGISTRY=github` overwrites it, so a CLI-supplied value is not
"never overwritten". -/
theorem c1_cli_value_overwritten_counterexample :
    (loadEnvLines defaultsEx (fromCli defaultsEx "/home/alice/docker-ctp" argsC1)
        ["REGISTRY=github"]).creds.registry ≠ argsC1.registry := by
  decide

/-- C2 (code bug): on a non-zero exit status, `Runner.run` logs the captured
stdout/stderr and then calls `sys.exit(1)` — the outcome is a `SystemExit`
carrying no captured output, not a raised operation error. -/
theorem c2_runner_exits_instead_of_raising :
    runnerRun false ["docker", "push", "img:tag"] worldFail
      = (RunOutcome.sysExit 1, [["docker", "push", "img:tag"]]) := rfl

/-- C3: for every run with cleanup-on-exit enabled, when pipeline step `i`
is reached (all earlier steps ended normally) and fails — by exception or
`SystemExit` alike — every later pipeline step `j` is not executed, the
cleanup phase is still invoked, and the failure propagates. -/
theorem c3_failure_aborts_rest_and_cleanup_runs (b : StepBeh) (i j : Nat)
    (hj : j ≤ 4) (hij : i < j)
    (hpre : ∀ k, k < i → sigAt b k = StepSig.ok)
    (hfail : sigAt b i ≠ StepSig.ok) :
    (executeWorkflow b true).cleanupInvoked = true
    ∧ stepAt j ∉ (executeWorkflow b true).executed
    ∧ (executeWorkflow b true).outcome = sigAt b i := by
  have hi : i ≤ 3 := by omega
  refine ⟨rfl, ?_⟩
  interval_cases i
  · rcases hv : b.validateSig with _ | m | n
    · exact absurd hv hfail
    all_goals
      have hex : (executeWorkflow b true).executed = [Step.validateStep] ∧
          (executeWorkflow b true).outcome = b.validateSig := by
        simp [executeWorkflow, runSeq, stepsOf, hv]
      rw [hex.1, hex.2]
      refine ⟨?_, rfl⟩
      interval_cases j <;> simp [stepAt]
  · have h0 : b.validateSig = .ok := hpre 0 (by omega)
    rcases hv : b.loginSig with _ | m | n
    · exact absurd hv hfail
    all_goals
      have hex : (executeWorkflow b true).executed = [Step.validateStep, Step.loginStep] ∧
          (executeWorkflow b true).outcome = b.loginSig := by
        simp [executeWorkflow, runSeq, stepsOf, h0, hv]
      rw [hex.1, hex.2]
      refine ⟨?_, rfl⟩
      interval_cases j <;> simp [stepAt]
  · have h0 : b.validateSig = .ok := hpre 0 (by omega)
    have h1 : b.loginSig = .ok := hpre 1 (by omega)
    rcases hv : b.buildSig with _ | m | n
    · exact absurd hv hfail
    all_goals
      have hex : (executeWorkflow b true).executed =
            [Step.validateStep, Step.loginStep, Step.buildStep] ∧
          (executeWorkflow b true).outcome = b.buildSig := by
        simp [executeWorkflow, runSeq, stepsOf, h0, h1, hv]
      rw [hex.1, hex.2]
      refine ⟨?_, rfl⟩
      interval_cases j <;> simp [stepAt]
  · have h0 : b.validateSig = .ok := hpre 0 (by omega)
    have h1 : b.loginSig = .ok := hpre 1 (by omega)
    have h2 : b.buildSig = .ok := hpre 2 (by omega)
    rcases hv : b.tagSig with _ | m | n
    · exact absurd hv hfail
    all_goals
      have hex : (executeWorkflow b true).executed =
            [Step.validateStep, Step.loginStep, Step.buildStep, Step.tagStep] ∧
          (executeWorkflow b true).outcome = b.tagSig := by
        simp [executeWorkflow, runSeq, stepsOf, h0, h1, h2, hv]
      rw [hex.1, hex.2]
      refine ⟨?_, rfl⟩
      interval_cases j
      simp [stepAt]

/-- C3 witness: with validation passing and login raising, the build step is
not executed, cleanup still runs, and the login failure propagates. -/
theorem c3_failure_aborts_rest_and_cleanup_runs_witness :
    (executeWorkflow behLoginFails true).cleanupInvoked = true
    ∧ stepAt 2 ∉ (executeWorkflow behLoginFails true).executed
    ∧ (executeWorkflow behLoginFails true).outcome = sigAt behLoginFails 1 :=
  c3_failure_aborts_rest_and_cleanup_runs behLoginFails 1 2 (by decide) (by decide)
    (fun k hk => by interval_cases k
                    rfl) (by decide)

/-- C4 (code bug): with dry-run enabled and `force_rebuild` off, the
pipeline still spawns `docker image inspect` from the build step's
already-exists check; with `force_rebuild` on (the check skipped entirely)
the dry-run pipeline spawns nothing. -/
theorem c4_dry_run_still_spawns_inspect :
    (opsWorkflow cfgDry none worldOk).1
      = [["docker", "image", "inspect", "myimage:1.0.0"]]
    ∧ (opsWorkflow cfgDryForce none worldOk).1 = [] := by
  exact ⟨rfl, rfl⟩

/-- C5: the defaulting step fills the username from the registry-specific
username and the tag from `latest`/`main` exactly when they are empty, and
leaves non-empty values unchanged. -/
theorem c5_resolve_fills_only_empty (c : Config) :
    (Config.resolve c).creds.username =
      (if c.creds.username = "" then
        (if c.creds.registry = "docker" then c.creds.docker_username
         else c.creds.github_username)
       else c.creds.username)
    ∧ (Config.resolve c).image.tag =
      (if optStrFalsy c.image.tag then
        some (if c.creds.registry = "docker" then DEFAULT_DOCKERHUB_TAG
              else DEFAULT_GITHUB_TAG)
       else c.image.tag) := by
  constructor
  · show (resolveUsername c.creds).username = _
    unfold resolveUsername
    split <;> simp
  · show (setDefaultTag c.image (resolveUsername c.creds).registry).tag = _
    rw [resolveUsername_registry]
    unfold setDefaultTag
    split <;> simp

/-- C6 (code bug): with two registered images and the removal of the first
failing, `Runner.run` exits the process (`sys.exit(1)`), so only the first
image is ever attempted — the loop does not continue past the failure. -/
theorem c6_failed_removal_halts_cleanup :
    cleanup ⟨false, ["imgA:1", "imgB:1"]⟩ worldRmiAFails
      = ⟨⟨false, ["imgA:1", "imgB:1"]⟩, ["imgA:1"], RunOutcome.sysExit 1⟩ := by
  decide

/-- C7 (amended): with a valid registry, a username, image name, or truthy
tag that fails the identifier pattern makes validation fail with a
`ValidationError` (never a `ConfigError`); the empty string fails that
pattern, so an empty username is one such `ValidationError`. -/
theorem c7_pattern_failures_are_validation_errors (fs : FsFacts) (c : Config)
    (hreg : c.creds.registry = "docker" ∨ c.creds.registry = "github") :
    (¬ reMatchIdent c.creds.username = true →
      validateInputs fs c
        = .error (.validationError ("Invalid username: " ++ c.creds.username)))
    ∧ (reMatchIdent c.creds.username = true →
        ¬ reMatchIdent c.image.image_name = true →
      validateInputs fs c
        = .error (.validationError ("Invalid image name: " ++ c.image.image_name)))
    ∧ (∀ t : String, reMatchIdent c.creds.username = true →
        reMatchIdent c.image.image_name = true →
        c.image.tag = some t → t ≠ "" → ¬ reMatchIdent t = true →
      validateInputs fs c = .error (.validationError ("Invalid tag: " ++ t)))
    ∧ reMatchIdent "" = false := by
  have hr : (c.creds.registry = "docker" || c.creds.registry = "github") = true := by
    rcases hreg with h | h <;> simp [h]
  refine ⟨?_, ?_, ?_, rfl⟩
  · intro hu
    simp only [Bool.not_eq_true] at hu
    simp [validateInputs, hr, validate_username, hu, Bind.bind, Except.bind,
      Pure.pure, Except.pure]
  · intro hu hi
    simp only [Bool.not_eq_true] at hi
    simp [validateInputs, hr, validate_username, validate_image_name, hu, hi,
      Bind.bind, Except.bind, Pure.pure, Except.pure]
  · intro t hu hi ht hne htm
    simp only [Bool.not_eq_true] at htm
    simp [validateInputs, hr, validate_username, validate_image_name, validate_tag,
      hu, hi, ht, optStrFalsy, hne, tagToStr, htm, Bind.bind, Except.bind,
      Pure.pure, Except.pure]

/-- C7 witness: the spec's own scenario — username `"!!!invalid!!!"` fails
validation with the `Invalid username` `ValidationError`. -/
theorem c7_pattern_failures_are_validation_errors_witness :
    validateInputs fsOk cfgBadUser
      = .error (.validationError "Invalid username: !!!invalid!!!") :=
  (c7_pattern_failures_are_validation_errors fsOk cfgBadUser (Or.inl rfl)).1 (by decide)

/-- C7 counterexample: an empty username makes validation fail with a
`ValidationError`, not the `ConfigError` the claim requires. -/
theorem c7_empty_username_counterexample :
    validateInputs fsOk cfgEmptyUser
      = .error (.validationError "Invalid username: ") := rfl

/-- C8 (amended): when no image name is supplied, `from_cli` seeds the image
name with the name of the resolved Dockerfile directory, which equals the
current directory's name exactly when the Dockerfile directory is left at
its default `"."`. -/
theorem c8_image_name_defaults_to_dockerfile_dir (D : Defaults) (cwd : String)
    (a : CliArgs) (h : a.image_name = none) :
    (fromCli D cwd a).image.image_name = pathResolveName cwd a.dockerfile_dir
    ∧ (a.dockerfile_dir = "." → (fromCli D cwd a).image.image_name = pathName cwd) := by
  have h1 : (fromCli D cwd a).image.image_name
      = pathResolveName cwd a.dockerfile_dir := by
    simp [fromCli, h, orElseStr]
  refine ⟨h1, fun hd => ?_⟩
  rw [h1, hd]
  unfold pathResolveName pathName resolveParts
  have hsp : splitPath "." = ["."] := rfl
  have hst : strStartsWith "." "/" = false := rfl
  rw [hsp, hst]
  simp

/-- C8 witness: no image name and the default Dockerfile directory give the
current directory's name. -/
theorem c8_image_name_defaults_to_dockerfile_dir_witness :
    (fromCli defaultsEx "/home/alice/docker-ctp" argsDirDefault).image.image_name
      = pathName "/home/alice/docker-ctp" :=
  (c8_image_name_defaults_to_dockerfile_dir defaultsEx "/home/alice/docker-ctp"
    argsDirDefault rfl).2 rfl

/-- C8 counterexample: with no image name but `-d /srv/elsewhere`, the image
name is `"elsewhere"`, not the current directory's name `"docker-ctp"`. -/
theorem c8_image_name_not_cwd_counterexample :
    (fromCli defaultsEx "/home/alice/docker-ctp" argsDirAway).image.image_name
        = "elsewhere"
    ∧ (fromCli defaultsEx "/home/alice/docker-ctp" argsDirAway).image.image_name
        ≠ defaultsEx.cwdName := by
  decide

/-- C9: `Config.resolve` is idempotent, so the second invocation by the CLI
entry point after `load_env` already resolved is harmless. -/
theorem c9_resolve_idempotent (c : Config) :
    Config.resolve (Config.resolve c) = Config.resolve c := by
  unfold Config.resolve
  simp [resolveUsername_idem, resolveUsername_registry, setDefaultTag_idem]

/-- C10: `cleanup` never modifies the registered image list (or the dry-run
flag), so running it a second time on the resulting state repeats exactly
the first run. -/
theorem c10_cleanup_preserves_registry (st : CleanupState)
    (w : List String → CmdResult) :
    (cleanup st w).state = st
    ∧ cleanup ((cleanup st w).state) w = cleanup st w := by
  have h : (cleanup st w).state = st := by
    unfold cleanup
    split <;> rfl
  exact ⟨h, by rw [h]⟩

end DockerCtp
